import Mathlib

/-!
Shallow embedding of `src/server.py` (Selenium MCP Server).

The server is a single FastAPI module.  The parts relevant to the claims:

* module-level configuration resolution from environment variables
  (`LOCAL_MODE`, `CHROME_BINARY`, `CHROMEDRIVER_PATH`, lines 35-57);
* the chrome-binary validation block with its `/usr/bin/google-chrome`
  fallback (lines 60-69);
* the `/health` endpoint `health_check` (lines 74-84);
* the `/mcp/invoke` endpoint `invoke_tool` (lines 278-304), which builds a
  fresh Selenium Chrome driver per request, navigates, reads the title and
  quits — with a single `except Exception` clause mapping any failure to
  HTTP 500 with detail `Chrome could not start: {e}`.

External effects (environment, filesystem checks, the Selenium library and
the browser it spawns) are modelled explicitly: the environment is an
association list, the filesystem a pair of predicates (existence and the
execute permission bit), and the behaviour of the Selenium library on one
invocation is a `World` record saying whether driver construction raises,
whether navigation raises, and what title the page reports.  Browser
process lifecycle is recorded as a trace of `Event`s (spawn / navigate /
quit) so that claims about process reuse and orphaned processes can be
stated.
-/

namespace SeleniumMCP

/-- JSON-ish values as they may appear in the `arguments` dict of an
`InvokeRequest` (pydantic parses the body into an arbitrary `dict`). -/
inductive JsonVal where
  | null
  | bool (b : Bool)
  | num (n : Int)
  | str (s : String)
  | arr (xs : List JsonVal)
  | obj (fields : List (String × JsonVal))

/-- Python truthiness, as tested by `if not url:` on line 285: `None`,
`False`, `0`, the empty string, the empty list and the empty dict are
falsy. -/
def JsonVal.truthy : JsonVal → Bool
  | .null => false
  | .bool b => b
  | .num n => !(n == 0)
  | .str s => !(s == "")
  | .arr xs => !xs.isEmpty
  | .obj fs => !fs.isEmpty

/-- Truthiness of `dict.get` output: `arguments.get("url")` is `None` when
the key is absent, and `not None` is true. -/
def truthyOpt : Option JsonVal → Bool
  | none => false
  | some v => v.truthy

/-- Python `str()` of an argument value, as interpolated by the f-string
`f"Opened {url}"` on line 300.  Scalars follow CPython exactly; container
rendering (Python repr with quoted elements) is abbreviated since no
invocation in this development passes a container as a url. -/
def JsonVal.pyStr : JsonVal → String
  | .null => "None"
  | .bool true => "True"
  | .bool false => "False"
  | .num n => toString n
  | .str s => s
  | .arr _ => "[...]"
  | .obj _ => "..."

/-- Association-list lookup modelling `dict.get(key)` (dict keys are
unique; the first binding wins). -/
def assocGet (l : List (String × JsonVal)) (k : String) : Option JsonVal :=
  (l.find? (fun p => p.1 == k)).map (fun p => p.2)

/-- The process environment: `os.getenv` reads from this. -/
structure Env where
  vars : List (String × String)

/-- Python `os.getenv(key, default)`. -/
def Env.get (e : Env) (k dflt : String) : String :=
  match e.vars.find? (fun p => p.1 == k) with
  | some p => p.2
  | none => dflt

/-- The filesystem as the server observes it: `os.path.exists` reads
`pathExists`; `executable` records the execute-permission bit, which the
source never reads or writes (it is part of the world model so that
claims about executability can be stated). -/
structure FileSystem where
  pathExists : String → Bool
  executable : String → Bool

/-- Python `str.lower()`, mapped over the character list (the library
`String.toLower` does not reduce inside the kernel). -/
def pyLower (s : String) : String := ⟨s.data.map Char.toLower⟩

/-- Line 39: `LOCAL_MODE = os.getenv("LOCAL_MODE", "false").lower() == "true"`. -/
def LOCAL_MODE (e : Env) : Bool :=
  pyLower (e.get ("LOCAL_MODE") ("false")) == "true"

/-- Lines 44-57: the configured chrome binary path before validation. -/
def configuredChromeBinary (e : Env) : String :=
  if LOCAL_MODE e then
    e.get ("LOCAL_CHROME_BINARY")
      ("/Applications/Google Chrome.app/Contents/MacOS/Google Chrome")
  else
    e.get ("CHROME_BINARY")
      ("/opt/render/project/src/.local/chrome/chrome-linux/chrome")

/-- Lines 49-57: the chromedriver path. -/
def CHROMEDRIVER_PATH (e : Env) : String :=
  if LOCAL_MODE e then
    e.get ("LOCAL_CHROMEDRIVER_PATH") ("/usr/local/bin/chromedriver")
  else
    e.get ("CHROMEDRIVER_PATH") ("./chromedriver/chromedriver")

/-- Line 62: the hard-coded fallback path tried when the configured binary
is absent. -/
def fallback_path : String := "/usr/bin/google-chrome"

/-- An operating-system call made by the validation block: every
`os.path.exists` probe is recorded, and a `chmod` constructor is available
so that the absence of permission repair is expressible (the source makes
no such call). -/
inductive FsOp where
  | existsCheck (path : String) (result : Bool)
  | chmod (path : String) (mode : Nat)
  deriving DecidableEq

/-- Recognizes a permission-repair call in an `FsOp` trace. -/
def FsOp.isChmod : FsOp → Bool
  | .chmod _ _ => true
  | _ => false

/-- Lines 60-69: validation of the chrome binary.  If the configured path
exists it is kept; otherwise, if `/usr/bin/google-chrome` exists, that
fallback is used; otherwise the (missing) configured path is kept and an
error is printed.  Returns the final `CHROME_BINARY` together with the
trace of filesystem calls the block makes (only existence probes; the
source performs no `chmod` and never reads the execute bit). -/
def CHROME_BINARY (e : Env) (fs : FileSystem) : String × List FsOp :=
  let primary := configuredChromeBinary e
  if fs.pathExists primary then
    (primary, [.existsCheck primary true])
  else if fs.pathExists fallback_path then
    (fallback_path, [.existsCheck primary false, .existsCheck fallback_path true])
  else
    (primary, [.existsCheck primary false, .existsCheck fallback_path false])

/-- The candidate list the validation block works through, in order. -/
def candidatePaths (e : Env) : List String :=
  [configuredChromeBinary e, fallback_path]

/-- Python `round(x, 2)` (banker's rounding to two decimal places), used
for `uptime_seconds` on line 76.  Time values are modelled as rationals. -/
def pyRound2 (q : ℚ) : ℚ :=
  let s : ℚ := 100 * q
  let f : ℤ := Int.floor s
  let frac : ℚ := s - (f : ℚ)
  let r : ℤ :=
    if frac < 1/2 then f
    else if 1/2 < frac then f + 1
    else if f % 2 = 0 then f else f + 1
  (r : ℚ) / 100

/-- The JSON body returned by `/health`. -/
structure HealthResponse where
  status : String
  phase : String
  uptime_seconds : ℚ
  chrome_path : String
  deriving DecidableEq

/-- Lines 74-84: the `/health` endpoint.  `chromeBinary` is the value of
`CHROME_BINARY` resolved at import time, `appStart` the module-level
`APP_START_TIME`, `now` the value of `time.time()` at the call, and `fs`
the filesystem at the call.  The handler is total: it only reads the
clock and `os.path.exists`, neither of which raises. -/
def health_check (chromeBinary : String) (fs : FileSystem) (appStart now : ℚ) :
    HealthResponse :=
  let uptime := pyRound2 (now - appStart)
  let chrome_ok := fs.pathExists chromeBinary
  { status := if chrome_ok then "healthy" else "unhealthy"
    phase := "ready"
    uptime_seconds := uptime
    chrome_path := chromeBinary }

/-- Lines 288-292: the Chrome launch options built by `invoke_tool`:
`binary_location = CHROME_BINARY` followed by the three `add_argument`
calls, in order. -/
structure ChromeOptions where
  binary_location : String
  arguments : List String
  deriving DecidableEq

/-- The options value `invoke_tool` constructs for a given chrome binary. -/
def chrome_options (chromeBinary : String) : ChromeOptions :=
  { binary_location := chromeBinary
    arguments := ["--headless=new", "--no-sandbox", "--disable-dev-shm-usage"] }

/-- A FastAPI `HTTPException(status_code, detail)` raised by a handler. -/
structure HTTPError where
  status_code : Nat
  detail : String
  deriving DecidableEq

/-- The pydantic request model of `/mcp/invoke` (lines 162-164): a tool
name and an arguments dict. -/
structure InvokeRequest where
  tool : String
  arguments : List (String × JsonVal)

/-- The JSON body returned by a successful `selenium_open_page`
invocation (line 300). -/
structure OkResponse where
  result : String
  title : String
  deriving DecidableEq

/-- The behaviour of the Selenium library and the underlying browser
during one invocation:

* `startError = some e` — `Service(...)` / `webdriver.Chrome(...)` raises
  with message `e` (no browser process is obtained by the handler);
* `navError = some e` — the driver was constructed but `driver.get(url)`
  raises with message `e`;
* `pageTitle` — the value of `driver.title` after a successful navigation;
* `browserMajor` / `driverMajor` — the major versions of the chrome binary
  on disk and of the chromedriver at the configured path.  The source
  never reads either. -/
structure World where
  startError : Option String
  navError : Option String
  pageTitle : String
  browserMajor : Nat
  driverMajor : Nat

/-- Browser-process lifecycle events caused by one or more invocations.
`spawn` is the browser process started by `webdriver.Chrome` (with the
options and driver path it was given), `navigate` is a completed
`driver.get`, `quit` is `driver.quit()`.  Process identities `id` are
drawn from a per-process counter so that distinct driver instances are
distinguishable. -/
inductive Event where
  | spawn (id : Nat) (options : ChromeOptions) (driverPath : String)
  | navigate (id : Nat) (url : JsonVal)
  | quit (id : Nat)

/-- Process-wide state: the next fresh session/process identity. -/
structure ProcState where
  nextId : Nat
  deriving DecidableEq

/-- Lines 278-304: the `/mcp/invoke` handler.

* unknown tool → `HTTPException(404, "Unknown tool: {tool}")`, no browser
  activity;
* `selenium_open_page` with missing or falsy `url` →
  `HTTPException(400, "Missing URL argument.")` before any driver is
  constructed;
* otherwise build `chrome_options`, then `Service(CHROMEDRIVER_PATH)` and
  `webdriver.Chrome(...)`; `driver.get(url)`; `title = driver.title`;
  `driver.quit()`; return the result dict.  Any exception in the `try`
  block is re-raised as `HTTPException(500, f"Chrome could not start: {e}")`;
  `driver.quit()` is reached only on the success path, so a driver whose
  navigation raised is never quit.

Returns the handler outcome, the updated process state, and the trace of
browser-process events. -/
def invoke_tool (chromeBinary chromedriverPath : String) (w : World)
    (request : InvokeRequest) (st : ProcState) :
    Except HTTPError OkResponse × ProcState × List Event :=
  if request.tool == "selenium_open_page" then
    match assocGet request.arguments ("url") with
    | none => (.error ⟨400, "Missing URL argument."⟩, st, [])
    | some url =>
      if !url.truthy then
        (.error ⟨400, "Missing URL argument."⟩, st, [])
      else
        let opts := chrome_options chromeBinary
        match w.startError with
        | some e =>
          (.error ⟨500, "Chrome could not start: " ++ e⟩, st, [])
        | none =>
          let id := st.nextId
          let st' : ProcState := ⟨st.nextId + 1⟩
          match w.navError with
          | some e =>
            (.error ⟨500, "Chrome could not start: " ++ e⟩, st',
             [.spawn id opts chromedriverPath])
          | none =>
            (.ok ⟨"Opened " ++ url.pyStr, w.pageTitle⟩, st',
             [.spawn id opts chromedriverPath, .navigate id url, .quit id])
  else
    (.error ⟨404, "Unknown tool: " ++ request.tool⟩, st, [])

/-- Sequential processing of several invocations (FastAPI requests served
one after the other), threading the process state and concatenating the
event traces. -/
def runRequests (chromeBinary chromedriverPath : String) :
    List (World × InvokeRequest) → ProcState →
    List (Except HTTPError OkResponse) × ProcState × List Event
  | [], st => ([], st, [])
  | (w, r) :: rest, st =>
    let step := invoke_tool chromeBinary chromedriverPath w r st
    let tail := runRequests chromeBinary chromedriverPath rest step.2.1
    (step.1 :: tail.1, tail.2.1, step.2.2 ++ tail.2.2)

/-- The process identity introduced by a `spawn` event. -/
def Event.spawnId : Event → Option Nat
  | .spawn i _ _ => some i
  | _ => none

/-- Tests whether an event is `quit i`. -/
def Event.quitsId (i : Nat) : Event → Bool
  | .quit j => j == i
  | _ => false

/-- The identities of browser processes spawned in a trace. -/
def spawnIds (evs : List Event) : List Nat :=
  evs.filterMap Event.spawnId

/-- The browser processes still alive after a trace: spawned in it and not
quit in it. -/
def liveIds (evs : List Event) : List Nat :=
  (spawnIds evs).filter (fun i => !(evs.any (Event.quitsId i)))

/-- The number of browser processes spawned in a trace. -/
def spawnCount (evs : List Event) : Nat :=
  (spawnIds evs).length

/-- Checks that a spawn event carries exactly the options `invoke_tool`
builds for the given chrome binary; non-spawn events pass vacuously. -/
def spawnOptionsOk (chromeBinary : String) : Event → Bool
  | .spawn _ o _ => decide (o = chrome_options chromeBinary)
  | _ => true

/-- Tests whether `pre` is a prefix of `s`, on the character lists (the
substring-based library test does not reduce inside the kernel). -/
def strStartsWith (pre s : String) : Bool :=
  pre.data.isPrefixOf s.data

/-- Holds when after every prefix of the trace at most one browser process
is alive.  Prefixes longer than the trace coincide with the whole trace,
so ranging over lengths `0 .. length` covers every instant. -/
def atMostOneLivePrefixes (evs : List Event) : Bool :=
  (List.range (evs.length + 1)).all
    (fun k => decide ((liveIds (evs.take k)).length ≤ 1))

/-- The default chrome binary path on Render (line 55). -/
def defaultChromeBinary : String :=
  "/opt/render/project/src/.local/chrome/chrome-linux/chrome"

/-- The default chromedriver path on Render (line 57). -/
def defaultDriverPath : String := "./chromedriver/chromedriver"

/-- A world where driver construction and navigation both succeed and the
page reports the title of example.com. -/
def okWorld : World :=
  { startError := none, navError := none, pageTitle := "Example Domain"
    browserMajor := 120, driverMajor := 120 }

/-- A world where the driver is constructed (browser spawned) but
`driver.get` raises a timeout. -/
def navFailWorld : World :=
  { startError := none, navError := some ("timed out"), pageTitle := ""
    browserMajor := 120, driverMajor := 120 }

/-- A world where `webdriver.Chrome` itself raises (no browser obtained). -/
def startFailWorld : World :=
  { startError := some ("session not created"), navError := none
    pageTitle := "", browserMajor := 120, driverMajor := 120 }

/-- A world with a major-version mismatch between browser (120) and the
chromedriver at the configured path (119), in which the launch and
navigation nevertheless succeed. -/
def mismatchWorld : World :=
  { startError := none, navError := none, pageTitle := "Example Domain"
    browserMajor := 120, driverMajor := 119 }

/-- A well-formed `selenium_open_page` request for a string url. -/
def openPageReq (u : String) : InvokeRequest :=
  { tool := "selenium_open_page", arguments := [("url", .str u)] }

/-- An environment whose only variable is a dry-run flag set to true; the
source reads no such variable. -/
def dryRunEnv : Env := ⟨[("DRY_RUN", "true")]⟩

/-- A filesystem where the default Render chrome binary exists but carries
no execute permission, and nothing else exists. -/
def nonExecFs : FileSystem :=
  { pathExists := fun p => p == defaultChromeBinary
    executable := fun _ => false }

/-- A filesystem where every path exists and is executable. -/
def allFs : FileSystem :=
  { pathExists := fun _ => true, executable := fun _ => true }

/-- Python `round(x, 2)` of a nonnegative number is nonnegative. -/
theorem pyRound2_nonneg (q : ℚ) (hq : 0 ≤ q) : 0 ≤ pyRound2 q := by
  have hs : (0 : ℚ) ≤ 100 * q := by positivity
  have hf : (0 : ℤ) ≤ Int.floor ((100 : ℚ) * q) := Int.floor_nonneg.mpr hs
  unfold pyRound2
  apply div_nonneg _ (by norm_num : (0 : ℚ) ≤ 100)
  have : ∀ r : ℤ, 0 ≤ r → (0 : ℚ) ≤ (r : ℚ) := fun r hr => by exact_mod_cast hr
  apply this
  split
  · exact hf
  · split
    · omega
    · split
      · exact hf
      · omega

/-- Claim C10 — the `/health` endpoint is total (the Lean model is a plain
function into `HealthResponse`, mirroring a handler that only reads the
clock and `os.path.exists`), reports status healthy exactly when the
resolved `CHROME_BINARY` path exists on the filesystem at call time and
unhealthy otherwise, and always includes the chrome path, the constant
phase, and a nonnegative rounded uptime (the call happens no earlier than
process start). -/
theorem C10_health_status_iff_chrome_exists (cb : String) (fs : FileSystem)
    (s n : ℚ) (h : s ≤ n) :
    ((health_check cb fs s n).status = "healthy" ↔ fs.pathExists cb = true) ∧
    ((health_check cb fs s n).status = "unhealthy" ↔ fs.pathExists cb = false) ∧
    0 ≤ (health_check cb fs s n).uptime_seconds ∧
    (health_check cb fs s n).chrome_path = cb ∧
    (health_check cb fs s n).phase = "ready" := by
  unfold health_check
  refine ⟨?_, ?_, ?_, rfl, rfl⟩
  · cases hc : fs.pathExists cb <;> simp [hc]
  · cases hc : fs.pathExists cb <;> simp [hc]
  · exact pyRound2_nonneg _ (by linarith)

/-- Witness for C10 at a concrete chrome path, filesystem and clock pair. -/
theorem C10_health_status_iff_chrome_exists_witness :
    (0 : ℚ) ≤ 5 ∧
    (((health_check defaultChromeBinary nonExecFs 0 5).status = "healthy" ↔
        nonExecFs.pathExists defaultChromeBinary = true) ∧
      ((health_check defaultChromeBinary nonExecFs 0 5).status = "unhealthy" ↔
        nonExecFs.pathExists defaultChromeBinary = false) ∧
      0 ≤ (health_check defaultChromeBinary nonExecFs 0 5).uptime_seconds ∧
      (health_check defaultChromeBinary nonExecFs 0 5).chrome_path =
        defaultChromeBinary ∧
      (health_check defaultChromeBinary nonExecFs 0 5).phase = "ready") :=
  ⟨by norm_num,
   C10_health_status_iff_chrome_exists defaultChromeBinary nonExecFs 0 5
     (by norm_num)⟩

/-- Claim C8 — for a `selenium_open_page` request whose arguments hold no
truthy url value (absent key, `None`, empty string, zero, false, empty
container), `invoke_tool` raises HTTP 400 with detail
`Missing URL argument.`, the process state is unchanged, and no browser
event occurs (no driver is constructed). -/
theorem C8_missing_url_guard (cb cd : String) (w : World) (st : ProcState)
    (args : List (String × JsonVal))
    (h : truthyOpt (assocGet args ("url")) = false) :
    invoke_tool cb cd w ⟨"selenium_open_page", args⟩ st =
      (.error ⟨400, "Missing URL argument."⟩, st, []) := by
  unfold invoke_tool
  cases hget : assocGet args ("url") with
  | none => simp [hget]
  | some v =>
    have hv : v.truthy = false := by simpa [truthyOpt, hget] using h
    simp [hget, hv]

/-- Witness for C8: a request whose arguments dict has no url key at all. -/
theorem C8_missing_url_guard_witness :
    truthyOpt (assocGet [] ("url")) = false ∧
    invoke_tool defaultChromeBinary defaultDriverPath okWorld
        ⟨"selenium_open_page", []⟩ ⟨0⟩ =
      (.error ⟨400, "Missing URL argument."⟩, ⟨0⟩, []) :=
  ⟨rfl,
   C8_missing_url_guard defaultChromeBinary defaultDriverPath okWorld ⟨0⟩ []
     rfl⟩

/-- Claim C9 — any request whose tool name is not `selenium_open_page`
falls through to HTTP 404 with detail naming the unknown tool, with the
process state unchanged and no browser event. -/
theorem C9_unknown_tool_rejected (cb cd : String) (w : World) (st : ProcState)
    (t : String) (args : List (String × JsonVal))
    (h : (t == "selenium_open_page") = false) :
    invoke_tool cb cd w ⟨t, args⟩ st =
      (.error ⟨404, "Unknown tool: " ++ t⟩, st, []) := by
  unfold invoke_tool
  simp [h]

/-- Witness for C9 at the concrete unknown tool name `selenium_click`. -/
theorem C9_unknown_tool_rejected_witness :
    (("selenium_click" == "selenium_open_page") = false) ∧
    invoke_tool defaultChromeBinary defaultDriverPath okWorld
        ⟨"selenium_click", [("url", .str ("https://example.com"))]⟩ ⟨0⟩ =
      (.error ⟨404, "Unknown tool: selenium_click"⟩, ⟨0⟩, []) :=
  ⟨rfl,
   C9_unknown_tool_rejected defaultChromeBinary defaultDriverPath okWorld ⟨0⟩
     "selenium_click" [("url", .str ("https://example.com"))] rfl⟩

/-- Counterexample to claim C1 as stated: two sequential successful
`selenium_open_page` invocations with no intervening failure.  Both
succeed, yet the trace holds two spawns with distinct process identities
0 and 1 — the second invocation builds a fresh driver instead of reusing
the first one. -/
theorem C1_counterexample :
    runRequests defaultChromeBinary defaultDriverPath
        [(okWorld, openPageReq ("https://a.example")),
         (okWorld, openPageReq ("https://b.example"))] ⟨0⟩ =
      ([.ok ⟨"Opened https://a.example", "Example Domain"⟩,
        .ok ⟨"Opened https://b.example", "Example Domain"⟩],
       ⟨2⟩,
       [.spawn 0 (chrome_options defaultChromeBinary) defaultDriverPath,
        .navigate 0 (.str ("https://a.example")), .quit 0,
        .spawn 1 (chrome_options defaultChromeBinary) defaultDriverPath,
        .navigate 1 (.str ("https://b.example")), .quit 1]) ∧
    spawnIds (runRequests defaultChromeBinary defaultDriverPath
        [(okWorld, openPageReq ("https://a.example")),
         (okWorld, openPageReq ("https://b.example"))] ⟨0⟩).2.2 = [0, 1] ∧
    (0 : Nat) ≠ 1 :=
  ⟨rfl, rfl, by decide⟩

/-- Counterexample to claim C2 as stated: a driver-construction failure
and a navigation failure (browser started, then the requested action
failed) are both reported as the same generic HTTP 500 whose detail is
the fixed string `Chrome could not start: ` wrapping the raw exception —
in particular the action failure is mislabelled as a start failure, so
the three cases the claim requires are not distinguished. -/
theorem C2_counterexample :
    (invoke_tool defaultChromeBinary defaultDriverPath startFailWorld
        (openPageReq ("https://example.com")) ⟨0⟩).1 =
      .error ⟨500, "Chrome could not start: session not created"⟩ ∧
    (invoke_tool defaultChromeBinary defaultDriverPath navFailWorld
        (openPageReq ("https://example.com")) ⟨0⟩).1 =
      .error ⟨500, "Chrome could not start: timed out"⟩ :=
  ⟨rfl, rfl⟩

/-- Claim C3 evaluated at the failing input: the driver is constructed
(browser process 0 spawned), `driver.get` raises, and `invoke_tool`
propagates HTTP 500 with process 0 still alive — `driver.quit()` is only
reached on the success path, so the spawned process is orphaned. -/
theorem C3_orphan_on_nav_failure :
    invoke_tool defaultChromeBinary defaultDriverPath navFailWorld
        (openPageReq ("https://example.com")) ⟨0⟩ =
      (.error ⟨500, "Chrome could not start: timed out"⟩, ⟨1⟩,
       [.spawn 0 (chrome_options defaultChromeBinary) defaultDriverPath]) ∧
    liveIds [.spawn 0 (chrome_options defaultChromeBinary) defaultDriverPath] =
      [0] :=
  ⟨rfl, rfl⟩

/-- Counterexample to claim C4 as stated: with browser major version 120
and a chromedriver of major version 119 at the configured path, the
invocation launches the browser and succeeds — the code never reads
either version, so the mismatched driver is used and no hard failure
occurs. -/
theorem C4_counterexample :
    mismatchWorld.browserMajor = 120 ∧
    mismatchWorld.driverMajor = 119 ∧
    (invoke_tool defaultChromeBinary defaultDriverPath mismatchWorld
        (openPageReq ("https://example.com")) ⟨0⟩).1 =
      .ok ⟨"Opened https://example.com", "Example Domain"⟩ ∧
    spawnCount (invoke_tool defaultChromeBinary defaultDriverPath mismatchWorld
        (openPageReq ("https://example.com")) ⟨0⟩).2.2 = 1 :=
  ⟨rfl, rfl, rfl, rfl⟩

/-- Counterexample to claim C5 as stated: an actual launch is configured
with exactly `binary_location` plus the three arguments
`--headless=new`, `--no-sandbox`, `--disable-dev-shm-usage`; no
GPU-disable flag and no per-process user-data-directory flag is ever
passed. -/
theorem C5_counterexample :
    (invoke_tool defaultChromeBinary defaultDriverPath okWorld
        (openPageReq ("https://example.com")) ⟨0⟩).2.2 =
      [.spawn 0 (chrome_options defaultChromeBinary) defaultDriverPath,
       .navigate 0 (.str ("https://example.com")), .quit 0] ∧
    (chrome_options defaultChromeBinary).arguments =
      ["--headless=new", "--no-sandbox", "--disable-dev-shm-usage"] ∧
    "--disable-gpu" ∉ (chrome_options defaultChromeBinary).arguments ∧
    (chrome_options defaultChromeBinary).arguments.any
        (fun a => strStartsWith ("--user-data-dir") a) = false :=
  ⟨rfl, rfl, by decide, by decide⟩

/-- Counterexample to claim C6 as stated: with a dry-run flag set to true
in the environment, invoking `selenium_open_page` on example.com still
spawns one browser process and returns the browser-reported title — the
code has no dry-run branch, so the launch is not skipped and no
synthetic result is produced. -/
theorem C6_counterexample :
    (invoke_tool (CHROME_BINARY dryRunEnv allFs).1 (CHROMEDRIVER_PATH dryRunEnv)
        okWorld (openPageReq ("https://example.com")) ⟨0⟩).1 =
      .ok ⟨"Opened https://example.com", "Example Domain"⟩ ∧
    spawnCount (invoke_tool (CHROME_BINARY dryRunEnv allFs).1
        (CHROMEDRIVER_PATH dryRunEnv) okWorld
        (openPageReq ("https://example.com")) ⟨0⟩).2.2 = 1 :=
  ⟨rfl, rfl⟩

/-- Counterexample to claim C7 as stated: a filesystem where the
configured chrome path exists but carries no execute permission.  The
validation block selects that path unchanged and its trace of operating
system calls holds no `chmod` — present-but-not-executable is neither
distinguished from present nor repaired. -/
theorem C7_counterexample :
    nonExecFs.pathExists defaultChromeBinary = true ∧
    nonExecFs.executable defaultChromeBinary = false ∧
    CHROME_BINARY ⟨[]⟩ nonExecFs =
      (defaultChromeBinary, [.existsCheck defaultChromeBinary true]) ∧
    (CHROME_BINARY ⟨[]⟩ nonExecFs).2.any FsOp.isChmod = false :=
  ⟨rfl, rfl, by decide, by decide⟩

/-- Claim C4 amended — `invoke_tool` never inspects the browser or driver
versions: its outcome (response, state and events) is identical for any
values of the two major versions, so version agreement is never
established, and a mismatch is neither detected nor a failure. -/
theorem C4_amended_version_agnostic (cb cd : String) (w : World)
    (req : InvokeRequest) (st : ProcState) (m1 m2 m3 m4 : Nat) :
    invoke_tool cb cd { w with browserMajor := m1, driverMajor := m2 } req st =
      invoke_tool cb cd { w with browserMajor := m3, driverMajor := m4 } req st :=
  rfl

/-- Claim C5 amended — every browser process `invoke_tool` spawns is
configured with exactly the fixed options `chrome_options`: the binary
location plus `--headless=new`, `--no-sandbox` and
`--disable-dev-shm-usage`; in particular no launch carries a GPU-disable
flag or a user-data-directory flag. -/
theorem C5_amended_fixed_flags (cb cd : String) (w : World)
    (req : InvokeRequest) (st : ProcState) :
    ((invoke_tool cb cd w req st).2.2).all (spawnOptionsOk cb) = true := by
  unfold invoke_tool
  repeat' split
  all_goals simp [spawnOptionsOk]

/-- Claim C2 amended — for a `selenium_open_page` request with a truthy
url, every failure inside the `try` block (driver construction raising,
or the browser starting and then navigation raising) is reported
identically: HTTP 500 with detail the fixed prefix
`Chrome could not start: ` followed by the raw exception text.  The only
classification the handler performs is missing url (400) and unknown tool
(404); the three failure kinds the claim lists are not distinguished. -/
theorem C2_amended_generic_500 (cb cd : String) (w : World) (st : ProcState)
    (args : List (String × JsonVal)) (e : String)
    (hu : truthyOpt (assocGet args ("url")) = true)
    (he : w.startError = some e ∨ (w.startError = none ∧ w.navError = some e)) :
    (invoke_tool cb cd w ⟨"selenium_open_page", args⟩ st).1 =
      .error ⟨500, "Chrome could not start: " ++ e⟩ := by
  unfold invoke_tool
  cases hget : assocGet args ("url") with
  | none => simp [hget, truthyOpt] at hu
  | some url =>
    have hv : url.truthy = true := by simpa [truthyOpt, hget] using hu
    rcases he with hs | ⟨hs, hn⟩
    · simp [hget, hv, hs]
    · simp [hget, hv, hs, hn]

/-- Witness for C2 amended at a navigation failure in `navFailWorld`. -/
theorem C2_amended_generic_500_witness :
    truthyOpt (assocGet [("url", .str ("https://example.com"))] ("url")) = true ∧
    (navFailWorld.startError = some ("timed out") ∨
      (navFailWorld.startError = none ∧
        navFailWorld.navError = some ("timed out"))) ∧
    (invoke_tool defaultChromeBinary defaultDriverPath navFailWorld
        ⟨"selenium_open_page", [("url", .str ("https://example.com"))]⟩ ⟨0⟩).1 =
      .error ⟨500, "Chrome could not start: timed out"⟩ :=
  ⟨rfl, Or.inr ⟨rfl, rfl⟩,
   C2_amended_generic_500 defaultChromeBinary defaultDriverPath navFailWorld ⟨0⟩
     [("url", .str ("https://example.com"))] "timed out" rfl
     (Or.inr ⟨rfl, rfl⟩)⟩

/-- Claim C1 amended — two sequential successful `selenium_open_page`
invocations with no intervening failure, starting from process start: the
second invocation constructs and uses a fresh Session (process identity 1,
distinct from 0 — the browser is rebuilt per request, never reused), and
because each invocation quits its own driver before returning, at most one
session is live at every instant of the run. -/
theorem C1_amended_fresh_session_each_call (cb cd : String) (w1 w2 : World)
    (u1 u2 : String)
    (h1s : w1.startError = none) (h1n : w1.navError = none)
    (h2s : w2.startError = none) (h2n : w2.navError = none)
    (hu1 : (u1 == "") = false) (hu2 : (u2 == "") = false) :
    runRequests cb cd [(w1, openPageReq u1), (w2, openPageReq u2)] ⟨0⟩ =
      ([.ok ⟨"Opened " ++ u1, w1.pageTitle⟩, .ok ⟨"Opened " ++ u2, w2.pageTitle⟩],
       ⟨2⟩,
       [.spawn 0 (chrome_options cb) cd, .navigate 0 (.str u1), .quit 0,
        .spawn 1 (chrome_options cb) cd, .navigate 1 (.str u2), .quit 1]) ∧
    atMostOneLivePrefixes
      [.spawn 0 (chrome_options cb) cd, .navigate 0 (.str u1), .quit 0,
       .spawn 1 (chrome_options cb) cd, .navigate 1 (.str u2), .quit 1] =
      true := by
  have hget1 : assocGet [("url", JsonVal.str u1)] ("url") = some (.str u1) := rfl
  have hget2 : assocGet [("url", JsonVal.str u2)] ("url") = some (.str u2) := rfl
  have htr1 : (JsonVal.str u1).truthy = true := by simp [JsonVal.truthy, hu1]
  have htr2 : (JsonVal.str u2).truthy = true := by simp [JsonVal.truthy, hu2]
  refine ⟨?_, rfl⟩
  simp [runRequests, invoke_tool, openPageReq, hget1, hget2, htr1, htr2, h1s,
    h1n, h2s, h2n, JsonVal.pyStr]

/-- Witness for C1 amended: two navigations in `okWorld`. -/
theorem C1_amended_fresh_session_each_call_witness :
    okWorld.startError = none ∧ okWorld.navError = none ∧
    (("https://a.example" == "") = false) ∧
    (("https://b.example" == "") = false) ∧
    (runRequests defaultChromeBinary defaultDriverPath
        [(okWorld, openPageReq ("https://a.example")),
         (okWorld, openPageReq ("https://b.example"))] ⟨0⟩ =
      ([.ok ⟨"Opened " ++ "https://a.example", okWorld.pageTitle⟩,
        .ok ⟨"Opened " ++ "https://b.example", okWorld.pageTitle⟩],
       ⟨2⟩,
       [.spawn 0 (chrome_options defaultChromeBinary) defaultDriverPath,
        .navigate 0 (.str ("https://a.example")), .quit 0,
        .spawn 1 (chrome_options defaultChromeBinary) defaultDriverPath,
        .navigate 1 (.str ("https://b.example")), .quit 1]) ∧
      atMostOneLivePrefixes
        [.spawn 0 (chrome_options defaultChromeBinary) defaultDriverPath,
         .navigate 0 (.str ("https://a.example")), .quit 0,
         .spawn 1 (chrome_options defaultChromeBinary) defaultDriverPath,
         .navigate 1 (.str ("https://b.example")), .quit 1] = true) :=
  ⟨rfl, rfl, rfl, rfl,
   C1_amended_fresh_session_each_call defaultChromeBinary defaultDriverPath
     okWorld okWorld "https://a.example" "https://b.example"
     rfl rfl rfl rfl rfl rfl⟩

/-- Evaluation of `invoke_tool` on the success path: a truthy string url,
driver construction succeeding and navigation succeeding give the result
dict, a bumped counter, and a spawn-navigate-quit trace. -/
theorem invoke_tool_success (cb cd : String) (w : World) (st : ProcState)
    (u : String) (hs : w.startError = none) (hn : w.navError = none)
    (hu : (u == "") = false) :
    invoke_tool cb cd w (openPageReq u) st =
      (.ok ⟨"Opened " ++ u, w.pageTitle⟩, ⟨st.nextId + 1⟩,
       [.spawn st.nextId (chrome_options cb) cd,
        .navigate st.nextId (.str u), .quit st.nextId]) := by
  have hget : assocGet [("url", JsonVal.str u)] ("url") = some (.str u) := rfl
  have htr : (JsonVal.str u).truthy = true := by simp [JsonVal.truthy, hu]
  simp [invoke_tool, openPageReq, hget, htr, hs, hn, JsonVal.pyStr]

/-- Reading one environment variable is unaffected by a binding for a
different variable name. -/
theorem Env.get_cons_of_ne (k2 v2 : String) (vars : List (String × String))
    (k d : String) (h : (k2 == k) = false) :
    Env.get ⟨(k2, v2) :: vars⟩ k d = Env.get ⟨vars⟩ k d := by
  simp [Env.get, List.find?, h]

/-- `LOCAL_MODE` ignores a dry-run variable. -/
theorem LOCAL_MODE_cons_dry_run (v : String) (vars : List (String × String)) :
    LOCAL_MODE ⟨("DRY_RUN", v) :: vars⟩ = LOCAL_MODE ⟨vars⟩ := by
  unfold LOCAL_MODE
  rw [Env.get_cons_of_ne ("DRY_RUN") v vars ("LOCAL_MODE") ("false") (by decide)]

/-- The configured chrome binary ignores a dry-run variable. -/
theorem configuredChromeBinary_cons_dry_run (v : String)
    (vars : List (String × String)) :
    configuredChromeBinary ⟨("DRY_RUN", v) :: vars⟩ =
      configuredChromeBinary ⟨vars⟩ := by
  unfold configuredChromeBinary
  rw [LOCAL_MODE_cons_dry_run]
  cases LOCAL_MODE ⟨vars⟩ <;> simp only [if_true, if_false, Bool.false_eq_true,
    ite_false, ite_true]
  · exact Env.get_cons_of_ne ("DRY_RUN") v vars ("CHROME_BINARY")
      ("/opt/render/project/src/.local/chrome/chrome-linux/chrome") (by decide)
  · exact Env.get_cons_of_ne ("DRY_RUN") v vars ("LOCAL_CHROME_BINARY")
      ("/Applications/Google Chrome.app/Contents/MacOS/Google Chrome")
      (by decide)

/-- The chromedriver path ignores a dry-run variable. -/
theorem CHROMEDRIVER_PATH_cons_dry_run (v : String)
    (vars : List (String × String)) :
    CHROMEDRIVER_PATH ⟨("DRY_RUN", v) :: vars⟩ = CHROMEDRIVER_PATH ⟨vars⟩ := by
  unfold CHROMEDRIVER_PATH
  rw [LOCAL_MODE_cons_dry_run]
  cases LOCAL_MODE ⟨vars⟩ <;> simp only [if_true, if_false, Bool.false_eq_true,
    ite_false, ite_true]
  · exact Env.get_cons_of_ne ("DRY_RUN") v vars ("CHROMEDRIVER_PATH")
      ("./chromedriver/chromedriver") (by decide)
  · exact Env.get_cons_of_ne ("DRY_RUN") v vars ("LOCAL_CHROMEDRIVER_PATH")
      ("/usr/local/bin/chromedriver") (by decide)

/-- The validated chrome binary ignores a dry-run variable. -/
theorem CHROME_BINARY_cons_dry_run (v : String)
    (vars : List (String × String)) (fs : FileSystem) :
    CHROME_BINARY ⟨("DRY_RUN", v) :: vars⟩ fs = CHROME_BINARY ⟨vars⟩ fs := by
  unfold CHROME_BINARY
  rw [configuredChromeBinary_cons_dry_run]

/-- Claim C6 amended — the code has no dry-run branch: a dry-run variable
in the environment changes nothing about configuration resolution or
`invoke_tool`'s behaviour, and a successful `selenium_open_page`
invocation under such an environment still launches exactly one browser
process and returns the browser-reported title rather than a synthetic
placeholder. -/
theorem C6_amended_dry_run_ignored (v : String)
    (vars : List (String × String)) (fs : FileSystem) (w : World)
    (st : ProcState) (u : String)
    (hs : w.startError = none) (hn : w.navError = none)
    (hu : (u == "") = false) :
    invoke_tool (CHROME_BINARY ⟨("DRY_RUN", v) :: vars⟩ fs).1
        (CHROMEDRIVER_PATH ⟨("DRY_RUN", v) :: vars⟩) w (openPageReq u) st =
      invoke_tool (CHROME_BINARY ⟨vars⟩ fs).1 (CHROMEDRIVER_PATH ⟨vars⟩) w
        (openPageReq u) st ∧
    (invoke_tool (CHROME_BINARY ⟨("DRY_RUN", v) :: vars⟩ fs).1
        (CHROMEDRIVER_PATH ⟨("DRY_RUN", v) :: vars⟩) w (openPageReq u) st).1 =
      .ok ⟨"Opened " ++ u, w.pageTitle⟩ ∧
    spawnCount (invoke_tool (CHROME_BINARY ⟨("DRY_RUN", v) :: vars⟩ fs).1
        (CHROMEDRIVER_PATH ⟨("DRY_RUN", v) :: vars⟩) w
        (openPageReq u) st).2.2 = 1 := by
  rw [CHROME_BINARY_cons_dry_run, CHROMEDRIVER_PATH_cons_dry_run]
  rw [invoke_tool_success _ _ w st u hs hn hu]
  exact ⟨rfl, rfl, rfl⟩

/-- Witness for C6 amended in the concrete dry-run environment. -/
theorem C6_amended_dry_run_ignored_witness :
    okWorld.startError = none ∧ okWorld.navError = none ∧
    (("https://example.com" == "") = false) ∧
    (invoke_tool (CHROME_BINARY ⟨[("DRY_RUN", "true")]⟩ allFs).1
        (CHROMEDRIVER_PATH ⟨[("DRY_RUN", "true")]⟩) okWorld
        (openPageReq ("https://example.com")) ⟨0⟩ =
      invoke_tool (CHROME_BINARY ⟨[]⟩ allFs).1 (CHROMEDRIVER_PATH ⟨[]⟩) okWorld
        (openPageReq ("https://example.com")) ⟨0⟩ ∧
      (invoke_tool (CHROME_BINARY ⟨[("DRY_RUN", "true")]⟩ allFs).1
          (CHROMEDRIVER_PATH ⟨[("DRY_RUN", "true")]⟩) okWorld
          (openPageReq ("https://example.com")) ⟨0⟩).1 =
        .ok ⟨"Opened " ++ "https://example.com", okWorld.pageTitle⟩ ∧
      spawnCount (invoke_tool (CHROME_BINARY ⟨[("DRY_RUN", "true")]⟩ allFs).1
          (CHROMEDRIVER_PATH ⟨[("DRY_RUN", "true")]⟩) okWorld
          (openPageReq ("https://example.com")) ⟨0⟩).2.2 = 1) :=
  ⟨rfl, rfl, rfl,
   C6_amended_dry_run_ignored "true" [] allFs okWorld ⟨0⟩ "https://example.com"
     rfl rfl rfl⟩

/-- Claim C7 amended — the validation block selects the first of its two
candidates (the configured path, then `/usr/bin/google-chrome`) that
exists, keeping the configured path when neither exists; it consults only
existence, so the selection is identical on any filesystem agreeing on
`pathExists` regardless of execute permissions, and its operating-system
call trace never holds a `chmod` (present-but-not-executable candidates
are selected as-is, not repaired). -/
theorem C7_amended_first_existing_no_chmod (e : Env) (fs fs2 : FileSystem)
    (hsame : fs2.pathExists = fs.pathExists) :
    (CHROME_BINARY e fs).1 =
      ((candidatePaths e).find? fs.pathExists).getD (configuredChromeBinary e) ∧
    (CHROME_BINARY e fs).2.any FsOp.isChmod = false ∧
    CHROME_BINARY e fs2 = CHROME_BINARY e fs := by
  unfold CHROME_BINARY candidatePaths
  rw [hsame]
  cases h1 : fs.pathExists (configuredChromeBinary e) <;>
    cases h2 : fs.pathExists fallback_path <;>
      simp [h1, h2, List.find?, FsOp.isChmod]

/-- Witness for C7 amended: the non-executable filesystem versus the same
filesystem with every execute bit set. -/
theorem C7_amended_first_existing_no_chmod_witness :
    (FileSystem.mk nonExecFs.pathExists (fun _ => true)).pathExists =
      nonExecFs.pathExists ∧
    ((CHROME_BINARY ⟨[]⟩ nonExecFs).1 =
      ((candidatePaths ⟨[]⟩).find? nonExecFs.pathExists).getD
        (configuredChromeBinary ⟨[]⟩) ∧
    (CHROME_BINARY ⟨[]⟩ nonExecFs).2.any FsOp.isChmod = false ∧
    CHROME_BINARY ⟨[]⟩ (FileSystem.mk nonExecFs.pathExists (fun _ => true)) =
      CHROME_BINARY ⟨[]⟩ nonExecFs) :=
  ⟨rfl,
   C7_amended_first_existing_no_chmod ⟨[]⟩ nonExecFs
     (FileSystem.mk nonExecFs.pathExists (fun _ => true)) rfl⟩

end SeleniumMCP
